import Mathlib

/-!
Shallow embedding of the AI-readiness scoring pipeline
(`src/app/api/ai-readiness/route.ts`) and the generative enrichment route
(`app/api/ai-analysis/route.ts`).  Strings are modelled as `List Char`
internally (wrapped in `String` at the API boundary), JS numbers as `ℚ`
(all arithmetic in the sources stays on small decimal values), and
`Math.round` as Mathlib's `round` (both are `⌊x + 1/2⌋`).
-/

namespace Seo

/-- Tri-state check status, `'pass' | 'fail' | 'warning'` in the source. -/
inductive Status where
  | pass : Status
  | warning : Status
  | fail : Status
deriving DecidableEq, Repr

/-- `CheckResult` interface from `route.ts`. -/
structure CheckResult where
  id : String
  label : String
  status : Status
  score : ℚ
  details : String
  recommendation : String
deriving DecidableEq, Repr

/-! ## Character classes and substring primitives -/

/-- JS `\s` character class (whitespace as used by `split`, `trim`, `\s+`). -/
def isWS (c : Char) : Bool :=
  c = ' ' || c = '\t' || c = '\n' || c = '\r' || c.val = 0x0b || c.val = 0x0c ||
  c.val = 0xa0 || c.val = 0x1680 || (0x2000 ≤ c.val && c.val ≤ 0x200a) ||
  c.val = 0x2028 || c.val = 0x2029 || c.val = 0x202f || c.val = 0x205f ||
  c.val = 0x3000 || c.val = 0xfeff

/-- JS line terminators (excluded by `.` in a regex). -/
def isLineTerm (c : Char) : Bool :=
  c = '\n' || c = '\r' || c.val = 0x2028 || c.val = 0x2029

/-- Case-insensitive prefix test (`/i` regex flag on a literal pattern). -/
def ciPrefix : List Char → List Char → Bool
  | [], _ => true
  | _ :: _, [] => false
  | p :: ps, c :: cs => (p.toLower == c.toLower) && ciPrefix ps cs

/-- `String.prototype.includes` on character lists. -/
def hasSub (p : List Char) : List Char → Bool
  | [] => p.isEmpty
  | c :: rest => p.isPrefixOf (c :: rest) || hasSub p rest

/-- Core of `countSub`, structurally recursive on a fuel bound so that
concrete inputs evaluate by kernel reduction.  Fuel never runs out when it
starts at the list length. -/
def countSubF (d : Char) (ps : List Char) : Nat → List Char → Nat
  | 0, _ => 0
  | _, [] => 0
  | fuel + 1, c :: rest =>
    if (d :: ps).isPrefixOf (c :: rest) then 1 + countSubF d ps fuel (rest.drop ps.length)
    else countSubF d ps fuel rest

/-- Count of non-overlapping, leftmost occurrences of the pattern
`d :: ps` — the length of `s.match(/pat/g)` for a literal pattern. -/
def countSub (d : Char) (ps : List Char) (l : List Char) : Nat :=
  countSubF d ps l.length l

/-- Core of `replaceAll` on a fuel bound. -/
def replaceAllF (d : Char) (ps rep : List Char) : Nat → List Char → List Char
  | 0, l => l
  | _, [] => []
  | fuel + 1, c :: rest =>
    if (d :: ps).isPrefixOf (c :: rest) then rep ++ replaceAllF d ps rep fuel (rest.drop ps.length)
    else c :: replaceAllF d ps rep fuel rest

/-- `s.replace(/pat/g, rep)` for a literal pattern `d :: ps`. -/
def replaceAll (d : Char) (ps rep : List Char) (l : List Char) : List Char :=
  replaceAllF d ps rep l.length l

/-- `s.replace(pat, rep)` (first occurrence only). -/
def replaceFirst (d : Char) (ps : List Char) (rep : List Char) : List Char → List Char
  | [] => []
  | c :: rest =>
    if (d :: ps).isPrefixOf (c :: rest) then rep ++ rest.drop ps.length
    else c :: replaceFirst d ps rep rest

/-! ## Regex scanning helpers for the tag-oriented patterns -/

/-- Split a character list at its first `'>'`: returns the (possibly empty)
run of non-`'>'` characters before it and the remainder after it.  This is
how `[^>]*>` resolves from a given position. -/
def splitAtGt : List Char → Option (List Char × List Char)
  | [] => none
  | c :: rest =>
    if c = '>' then some ([], rest)
    else
      match splitAtGt rest with
      | some (p, q) => some (c :: p, q)
      | none => none

theorem splitAtGt_length : ∀ {l p q : List Char}, splitAtGt l = some (p, q) → q.length < l.length := by
  intro l
  induction l with
  | nil => intro p q h; simp [splitAtGt] at h
  | cons c rest ih =>
    intro p q h
    by_cases hc : c = '>'
    · simp [splitAtGt, hc] at h
      simp [← h.2]
    · simp only [splitAtGt, if_neg hc] at h
      cases hsp : splitAtGt rest with
      | none => rw [hsp] at h; simp at h
      | some pq =>
        rw [hsp] at h
        obtain ⟨p', q'⟩ := pq
        simp at h
        have := ih hsp
        simp [← h.2]
        omega

/-- Core of `stripTags` on a fuel bound. -/
def stripTagsF : Nat → List Char → List Char
  | 0, l => l
  | _, [] => []
  | fuel + 1, c :: rest =>
    if c = '<' then
      match splitAtGt rest with
      | some (p, q) => if p.isEmpty then '<' :: stripTagsF fuel rest else ' ' :: stripTagsF fuel q
      | none => '<' :: stripTagsF fuel rest
    else c :: stripTagsF fuel rest

/-- `html.replace(/<[^>]+>/g, ' ')`: each maximal tag-shaped span is
replaced by a single space.  A `'<'` with no later `'>'` (or immediately
followed by `'>'`) does not match and is kept. -/
def stripTags (l : List Char) : List Char :=
  stripTagsF l.length l

/-- Does `rest` (the characters right after a `'<'`) start a close tag
`/tag>` for the given (lowercase) tag name, case-insensitively on the
letters? -/
def isCloseAt (tag : List Char) (rest : List Char) : Bool :=
  match rest with
  | '/' :: r2 =>
    ciPrefix tag r2 &&
      (match r2.drop tag.length with
       | '>' :: _ => true
       | _ => false)
  | _ => false

/-- Drop everything up to and through the first close tag `</tag>`
(case-insensitive), returning the remainder; `none` if there is none.
This is the lazy `[\s\S]*?<\/tag>` part of the block regex. -/
def dropThroughClose (tag : List Char) : List Char → Option (List Char)
  | [] => none
  | c :: rest =>
    if c = '<' && isCloseAt tag rest then some (rest.drop (tag.length + 2))
    else dropThroughClose tag rest

theorem dropThroughClose_length {tag : List Char} :
    ∀ {l r : List Char}, dropThroughClose tag l = some r → r.length ≤ l.length := by
  intro l
  induction l with
  | nil => intro r h; simp [dropThroughClose] at h
  | cons c rest ih =>
    intro r h
    simp only [dropThroughClose] at h
    split at h
    · simp at h
      subst h
      simp only [List.length_cons, List.length_drop]
      omega
    · exact Nat.le_trans (ih h) (by simp)

/-- Core of `removeBlocks` on a fuel bound. -/
def removeBlocksF (tag : List Char) : Nat → List Char → List Char
  | 0, l => l
  | _, [] => []
  | fuel + 1, c :: rest =>
    if c = '<' && ciPrefix tag rest then
      match splitAtGt (rest.drop tag.length) with
      | some (_, afterOpen) =>
        match dropThroughClose tag afterOpen with
        | some remainder => removeBlocksF tag fuel remainder
        | none => c :: removeBlocksF tag fuel rest
      | none => c :: removeBlocksF tag fuel rest
    else c :: removeBlocksF tag fuel rest

/-- `html.replace(/<tag[^>]*>[\s\S]*?<\/tag>/gi, '')` for a literal
lowercase tag name: removes each block including its content. -/
def removeBlocks (tag : List Char) (l : List Char) : List Char :=
  removeBlocksF tag l.length l

/-! ## Whitespace collapsing and trimming -/

/-- `s.replace(/\s+/g, ' ')`: every maximal whitespace run becomes a
single space. -/
def collapseWS : List Char → List Char
  | [] => []
  | [c] => if isWS c then [' '] else [c]
  | c :: d :: rest =>
    if isWS c then
      if isWS d then collapseWS (d :: rest)
      else ' ' :: collapseWS (d :: rest)
    else c :: collapseWS (d :: rest)

/-- `String.prototype.trim`. -/
def trimWS (l : List Char) : List Char :=
  (l.dropWhile isWS).rdropWhile isWS

/-! ## The content extractor (`extractTextContent`, route.ts:34-40) -/

/-- Stages of `extractTextContent` before whitespace collapsing: remove
script and style blocks, strip remaining tags to spaces, decode the six
entities in source order. -/
def preClean (html : List Char) : List Char :=
  let l := removeBlocks "script".data html
  let l := removeBlocks "style".data l
  let l := stripTags l
  let l := replaceAll '&' "nbsp;".data " ".data l
  let l := replaceAll '&' "amp;".data "&".data l
  let l := replaceAll '&' "lt;".data "<".data l
  let l := replaceAll '&' "gt;".data ">".data l
  let l := replaceAll '&' "quot;".data "\"".data l
  replaceAll '&' "#39;".data "'".data l

/-- List-level body of `extractTextContent`: clean markup and entities,
then collapse whitespace runs to single spaces and trim. -/
def extractList (l : List Char) : List Char :=
  trimWS (collapseWS (preClean l))

/-- `extractTextContent` from `route.ts`. -/
def extractTextContent (html : String) : String :=
  String.mk (extractList html.data)

theorem mk_data (l : List Char) : (String.mk l).data = l := rfl

/-! ## Idempotence analysis of the extractor -/

/-- A list is whitespace-normal when every whitespace character in it is a
plain space that is not followed by another whitespace character. -/
def wsOk : List Char → Bool
  | [] => true
  | c :: rest =>
    (if isWS c then
       (c == ' ') && (match rest with | [] => true | d :: _ => !isWS d)
     else true) && wsOk rest

theorem collapseWS_cons_not {d : Char} {rest : List Char} (hd : isWS d = false) :
    collapseWS (d :: rest) = d :: collapseWS rest := by
  cases rest with
  | nil => simp [collapseWS, hd]
  | cons e r => simp [collapseWS, hd]

theorem wsOk_tail {c : Char} {rest : List Char} (h : wsOk (c :: rest) = true) :
    wsOk rest = true := by
  simp only [wsOk, Bool.and_eq_true] at h
  exact h.2

theorem wsOk_head_space {c : Char} {rest : List Char} (hc : isWS c = true)
    (h : wsOk (c :: rest) = true) : c = ' ' := by
  cases rest with
  | nil =>
    simp only [wsOk, hc, if_true, Bool.and_true, Bool.and_eq_true, beq_iff_eq] at h
    exact h
  | cons d r =>
    simp only [wsOk, hc, if_true, Bool.and_eq_true, beq_iff_eq] at h
    exact h.1.1

theorem wsOk_head_next {c d : Char} {rest : List Char} (hc : isWS c = true)
    (h : wsOk (c :: d :: rest) = true) : isWS d = false := by
  simp only [wsOk, hc, if_true, Bool.and_eq_true, beq_iff_eq] at h
  simpa using h.1.2

theorem wsOk_collapseWS : ∀ l : List Char, wsOk (collapseWS l) = true := by
  intro l
  induction l using collapseWS.induct with
  | case1 => simp [collapseWS, wsOk]
  | case2 c hc => simp [collapseWS, wsOk, hc]
  | case3 c hc => simp [collapseWS, wsOk, hc]
  | case4 c d rest hc hd ih =>
    simp only [collapseWS, hc, hd, if_true]
    exact ih
  | case5 c d rest hc hd ih =>
    have hd' : isWS d = false := by simpa using hd
    simp only [collapseWS, hc, hd', Bool.false_eq_true, if_true, if_false]
    rw [collapseWS_cons_not hd'] at ih ⊢
    simp only [wsOk, hd', Bool.false_eq_true, if_false, Bool.true_and] at ih ⊢
    simp [wsOk, isWS, hd']
    exact ih
  | case6 c d rest hc ih =>
    have hc' : isWS c = false := by simpa using hc
    simp only [collapseWS, hc', Bool.false_eq_true, if_false]
    simp only [wsOk, hc', Bool.false_eq_true, if_false, Bool.true_and]
    exact ih

theorem collapseWS_eq_self : ∀ l : List Char, wsOk l = true → collapseWS l = l := by
  intro l
  induction l using collapseWS.induct with
  | case1 => intro _; rfl
  | case2 c hc =>
    intro h
    simp [wsOk, hc] at h
    simp [collapseWS, hc, h]
  | case3 c hc =>
    intro _
    have hc' : isWS c = false := by simpa using hc
    simp [collapseWS, hc']
  | case4 c d rest hc hd ih =>
    intro h
    simp [wsOk, hc, hd] at h
  | case5 c d rest hc hd ih =>
    intro h
    have hd' : isWS d = false := by simpa using hd
    have hsp : c = ' ' := wsOk_head_space hc h
    simp only [collapseWS, hc, hd', Bool.false_eq_true, if_true, if_false]
    rw [ih (wsOk_tail h), hsp]
  | case6 c d rest hc ih =>
    intro h
    have hc' : isWS c = false := by simpa using hc
    simp only [collapseWS, hc', Bool.false_eq_true, if_false]
    rw [ih (wsOk_tail h)]

theorem wsOk_append_right : ∀ (a b : List Char), wsOk (a ++ b) = true → wsOk b = true := by
  intro a
  induction a with
  | nil => intro b h; exact h
  | cons c a' ih =>
    intro b h
    simp only [List.cons_append, wsOk, Bool.and_eq_true] at h
    exact ih b h.2

theorem wsOk_append_left : ∀ (a b : List Char), wsOk (a ++ b) = true → wsOk a = true := by
  intro a
  induction a with
  | nil => intro b _; rfl
  | cons c a' ih =>
    intro b h
    have h' : wsOk (c :: (a' ++ b)) = true := by simpa using h
    simp only [wsOk, Bool.and_eq_true]
    refine ⟨?_, ih b (wsOk_tail h')⟩
    by_cases hc : isWS c
    · have hsp : c = ' ' := wsOk_head_space hc h'
      cases a' with
      | nil => simp [hc, hsp]
      | cons e r =>
        have hnext : isWS e = false := wsOk_head_next hc (by simpa using h')
        simp [hc, hsp, hnext]
    · simp [hc]

theorem wsOk_trimWS (l : List Char) (h : wsOk l = true) : wsOk (trimWS l) = true := by
  unfold trimWS
  obtain ⟨a, ha⟩ := (List.dropWhile_suffix (l := l) isWS)
  have h1 : wsOk (l.dropWhile isWS) = true := wsOk_append_right a _ (by rw [ha]; exact h)
  obtain ⟨b, hb⟩ := (List.rdropWhile_prefix isWS (l.dropWhile isWS))
  exact wsOk_append_left _ b (by rw [hb]; exact h1)

theorem trimWS_trimWS (l : List Char) : trimWS (trimWS l) = trimWS l := by
  unfold trimWS
  set X := l.dropWhile isWS with hX
  have hdrop : ((X.rdropWhile isWS).dropWhile isWS) = X.rdropWhile isWS := by
    obtain ⟨t, ht⟩ := List.rdropWhile_prefix isWS X
    cases h : X.rdropWhile isWS with
    | nil => simp
    | cons c cs =>
      have hXc : X = c :: (cs ++ t) := by rw [← ht, h]; simp
      have hc : ¬ isWS c = true := by
        have hlen : 0 < (l.dropWhile isWS).length := by rw [← hX, hXc]; simp
        have := List.dropWhile_get_zero_not isWS l hlen
        simpa [← hX, hXc] using this
      simp [List.dropWhile, hc]
  rw [hdrop, List.rdropWhile_idempotent]

theorem replaceAllF_eq_self {d : Char} {ps rep : List Char} :
    ∀ (fuel : Nat) (l : List Char), (∀ c ∈ l, c ≠ d) → replaceAllF d ps rep fuel l = l := by
  intro fuel
  induction fuel with
  | zero => intro l _; cases l <;> rfl
  | succ f ih =>
    intro l h
    cases l with
    | nil => rfl
    | cons c rest =>
      have hc : (d == c) = false := by
        have := h c (by simp)
        simp only [beq_eq_false_iff_ne, ne_eq]
        exact fun hdc => this hdc.symm
      rw [replaceAllF]
      simp only [List.isPrefixOf, hc, Bool.false_and, Bool.false_eq_true, if_false]
      rw [ih rest (fun x hx => h x (by simp [hx]))]

theorem replaceAll_eq_self {d : Char} {ps rep : List Char} {l : List Char}
    (h : ∀ c ∈ l, c ≠ d) : replaceAll d ps rep l = l :=
  replaceAllF_eq_self l.length l h

theorem stripTagsF_eq_self :
    ∀ (fuel : Nat) (l : List Char), (∀ c ∈ l, c ≠ '<') → stripTagsF fuel l = l := by
  intro fuel
  induction fuel with
  | zero => intro l _; cases l <;> rfl
  | succ f ih =>
    intro l h
    cases l with
    | nil => rfl
    | cons c rest =>
      have hc : c ≠ '<' := h c (by simp)
      rw [stripTagsF, if_neg hc]
      rw [ih rest (fun x hx => h x (by simp [hx]))]

theorem stripTags_eq_self {l : List Char} (h : ∀ c ∈ l, c ≠ '<') : stripTags l = l :=
  stripTagsF_eq_self l.length l h

theorem removeBlocksF_eq_self {tag : List Char} :
    ∀ (fuel : Nat) (l : List Char), (∀ c ∈ l, c ≠ '<') → removeBlocksF tag fuel l = l := by
  intro fuel
  induction fuel with
  | zero => intro l _; cases l <;> rfl
  | succ f ih =>
    intro l h
    cases l with
    | nil => rfl
    | cons c rest =>
      have hc : decide (c = '<') = false := decide_eq_false (h c (by simp))
      rw [removeBlocksF]
      simp only [hc, Bool.false_and, Bool.false_eq_true, if_false]
      rw [ih rest (fun x hx => h x (by simp [hx]))]

theorem removeBlocks_eq_self {tag : List Char} {l : List Char}
    (h : ∀ c ∈ l, c ≠ '<') : removeBlocks tag l = l :=
  removeBlocksF_eq_self l.length l h

theorem preClean_eq_self {l : List Char}
    (hlt : ∀ c ∈ l, c ≠ '<') (hamp : ∀ c ∈ l, c ≠ '&') : preClean l = l := by
  unfold preClean
  dsimp only
  rw [removeBlocks_eq_self hlt, removeBlocks_eq_self hlt, stripTags_eq_self hlt,
    replaceAll_eq_self hamp, replaceAll_eq_self hamp, replaceAll_eq_self hamp,
    replaceAll_eq_self hamp, replaceAll_eq_self hamp, replaceAll_eq_self hamp]

set_option maxHeartbeats 2000000 in
/-- C3 counterexample: the extractor is not idempotent.  On `"&amp;amp;"`
the first pass decodes the leading `&amp;` and produces `"&amp;"`, which a
second pass decodes further to `"&"`. -/
theorem extractTextContent_not_idempotent :
    extractTextContent (extractTextContent "&amp;amp;") ≠ extractTextContent "&amp;amp;" := by
  decide

/-- Idempotence of the list-level extractor on whitespace-normal inputs
free of `'<'` and `'&'`. -/
theorem extractList_idem_of_clean (l : List Char)
    (hlt : ∀ c ∈ extractList l, c ≠ '<')
    (hamp : ∀ c ∈ extractList l, c ≠ '&') :
    extractList (extractList l) = extractList l := by
  simp only [extractList] at hlt hamp ⊢
  have hws : wsOk (trimWS (collapseWS (preClean l))) = true :=
    wsOk_trimWS _ (wsOk_collapseWS _)
  rw [preClean_eq_self hlt hamp, collapseWS_eq_self _ hws, trimWS_trimWS]

/-- C3 (amended): the extractor is idempotent on every input whose
extracted output contains no `'<'` and no `'&'` character (entity decoding
and tag stripping can re-expose markup syntax, breaking idempotence
otherwise). -/
theorem extractTextContent_idempotent_of_clean (h : String)
    (hlt : ∀ c ∈ (extractTextContent h).data, c ≠ '<')
    (hamp : ∀ c ∈ (extractTextContent h).data, c ≠ '&') :
    extractTextContent (extractTextContent h) = extractTextContent h := by
  simp only [extractTextContent, mk_data] at hlt hamp ⊢
  rw [extractList_idem_of_clean h.data hlt hamp]

/-- Witness for the amended C3 theorem at the concrete input `"a  b"`. -/
theorem extractTextContent_idempotent_witness :
    extractTextContent (extractTextContent "a  b") = extractTextContent "a  b" :=
  extractTextContent_idempotent_of_clean "a  b" (by decide) (by decide)

/-! ## Splitting (JS `String.prototype.split` on a class regex) -/

/-- Fueled core of `splitClass`. -/
def splitClassF (p : Char → Bool) : Nat → List Char → List (List Char)
  | 0, l => [l]
  | _, [] => [[]]
  | fuel + 1, c :: rest =>
    let seg := (c :: rest).takeWhile (fun x => !p x)
    match (c :: rest).dropWhile (fun x => !p x) with
    | [] => [seg]
    | r :: rs => seg :: splitClassF p fuel ((r :: rs).dropWhile p)

/-- `s.split(/[class]+/)`: the segments between maximal separator runs,
including an empty leading (trailing) segment when the string starts
(ends) with a separator. -/
def splitClass (p : Char → Bool) (l : List Char) : List (List Char) :=
  splitClassF p l.length l

/-! ## The readability scorer (`calculateReadability`, route.ts:17-32) -/

/-- The `[.!?]+` sentence-separator class. -/
def isSentSep (c : Char) : Bool := c = '.' || c = '!' || c = '?'

/-- Sentences: split on `[.!?]+` runs, keep fragments with non-blank trim. -/
def sentencesOf (text : List Char) : List (List Char) :=
  (splitClass isSentSep text).filter (fun s => decide (0 < (trimWS s).length))

/-- Words: split on whitespace runs, keep non-empty fragments. -/
def wordsOf (text : List Char) : List (List Char) :=
  (splitClass isWS text).filter (fun w => decide (0 < w.length))

def isVowel (c : Char) : Bool :=
  c = 'a' || c = 'e' || c = 'i' || c = 'o' || c = 'u' ||
  c = 'A' || c = 'E' || c = 'I' || c = 'O' || c = 'U'

/-- Number of maximal vowel-letter runs in a word
(`word.match(/[aeiouAEIOU]+/g).length`), counted at run ends. -/
def vowelClusters : List Char → Nat
  | [] => 0
  | [c] => if isVowel c then 1 else 0
  | c :: d :: rest => (if isVowel c && !isVowel d then 1 else 0) + vowelClusters (d :: rest)

/-- The syllable accumulator of `calculateReadability`
(route.ts:20-22): `acc + (word.match(/[aeiouAEIOU]+/g) || []).length || 1`.
JS `+` binds tighter than `||`, so each step is `(acc + clusters) || 1`:
the 1-floor applies to the running sum, not to the word's own count. -/
def syllablesOf (ws : List (List Char)) : Nat :=
  ws.foldl
    (fun acc w =>
      if acc + vowelClusters w = 0 then 1 else acc + vowelClusters w) 0

/-- `calculateReadability`: Flesch Reading Ease clamped to `[0, 100]`,
`0` when there are no sentences or no words. -/
def calculateReadability (text : String) : ℚ :=
  let sentences := sentencesOf text.data
  let words := wordsOf text.data
  let syllables := syllablesOf words
  if sentences.length = 0 ∨ words.length = 0 then 0
  else
    let avgWordsPerSentence : ℚ := (words.length : ℚ) / (sentences.length : ℚ)
    let avgSyllablesPerWord : ℚ := (syllables : ℚ) / (words.length : ℚ)
    max 0 (min 100 (206835/1000 - 1015/1000 * avgWordsPerSentence - 846/10 * avgSyllablesPerWord))

/-- C5 counterexample: on the extracted text `"a xyz"` the code computes
1 syllable ((0+1)||1 = 1, then (1+0)||1 = 1), while the claimed
per-word floor `Σ max(1, clusters)` gives 2 — a vowel-less word after the
first contributes 0, so not every word contributes at least one
syllable. -/
theorem syllable_total_not_floored :
    syllablesOf (wordsOf "a xyz".data) = 1 ∧
      ((wordsOf "a xyz".data).map (fun w => max 1 (vowelClusters w))).sum = 2 := by
  constructor
  · decide
  · decide

theorem syllablesOf_fold_pos :
    ∀ (l : List (List Char)) (acc : Nat), 1 ≤ acc →
      l.foldl
        (fun acc w =>
          if acc + vowelClusters w = 0 then 1 else acc + vowelClusters w) acc =
      acc + (l.map vowelClusters).sum := by
  intro l
  induction l with
  | nil => intro acc _; simp
  | cons w t ih =>
    intro acc hacc
    simp only [List.foldl_cons, List.map_cons, List.sum_cons]
    have hne : ¬ (acc + vowelClusters w = 0) := by omega
    rw [if_neg hne, ih (acc + vowelClusters w) (by omega)]
    omega

/-- C5 (amended): the syllable total used by the readability scorer equals
`max 1 (clusters of the first word)` plus the plain sum of the cluster
counts of the remaining words — because `acc + clusters || 1` floors the
running sum, only the first word enjoys the 1-syllable floor, and a later
vowel-less word contributes 0. -/
theorem syllable_total_first_word_floor (text : String) :
    syllablesOf (wordsOf text.data) =
      (match wordsOf text.data with
       | [] => 0
       | w :: ws => max 1 (vowelClusters w) + (ws.map vowelClusters).sum) := by
  cases hw : wordsOf text.data with
  | nil => rfl
  | cons w ws =>
    simp only [syllablesOf, List.foldl_cons, Nat.zero_add]
    have hfirst : (if vowelClusters w = 0 then 1 else vowelClusters w) =
        max 1 (vowelClusters w) := by
      by_cases hc : vowelClusters w = 0
      · simp [hc]
      · rw [if_neg hc]
        omega
    rw [hfirst, syllablesOf_fold_pos ws (max 1 (vowelClusters w)) (le_max_left 1 _)]

/-! ## The heading analyzer (route.ts:47-78) -/

/-- Fueled scan for `/<h1[^>]*>/gi` match count. -/
def scanH1CountF : Nat → List Char → Nat
  | 0, _ => 0
  | _, [] => 0
  | fuel + 1, c :: rest =>
    if c = '<' && ciPrefix ['h', '1'] rest then
      match splitAtGt (rest.drop 2) with
      | some (_, q) => 1 + scanH1CountF fuel q
      | none => scanH1CountF fuel rest
    else scanH1CountF fuel rest

/-- Number of `/<h1[^>]*>/gi` matches. -/
def scanH1Count (l : List Char) : Nat := scanH1CountF l.length l

/-- Does `rest` (the characters after a `'<'`) start `h[1-6]`
case-insensitively? -/
def isHeadingAt (rest : List Char) : Bool :=
  match rest with
  | d :: e :: _ => (d.toLower == 'h') && ('1' ≤ e && e ≤ '6')
  | _ => false

/-- The digit of the heading opened at this position. -/
def headingLevelAt (rest : List Char) : Nat :=
  match rest with
  | _ :: e :: _ => e.toNat - 48
  | _ => 0

/-- Fueled scan for `/<h([1-6])[^>]*>/gi` capturing the levels in document
order (`headingLevels` in the source). -/
def scanHeadingsF : Nat → List Char → List Nat
  | 0, _ => []
  | _, [] => []
  | fuel + 1, c :: rest =>
    if c = '<' && isHeadingAt rest then
      match splitAtGt (rest.drop 2) with
      | some (_, q) => headingLevelAt rest :: scanHeadingsF fuel q
      | none => scanHeadingsF fuel rest
    else scanHeadingsF fuel rest

/-- Heading levels in document order. -/
def scanHeadings (l : List Char) : List Nat := scanHeadingsF l.length l

/-- Number of adjacent heading pairs whose level increases by more than 1. -/
def headingSkips : List Nat → Nat
  | a :: b :: rest => (if a + 1 < b then 1 else 0) + headingSkips (b :: rest)
  | _ => 0

/-- The per-skip issue strings, in document order. -/
def skipIssues : List Nat → List String
  | a :: b :: rest =>
    (if a + 1 < b then ["Skipped heading level (H" ++ toString a ++ " → H" ++ toString b ++ ")"]
     else []) ++ skipIssues (b :: rest)
  | _ => []

/-- The `for` loop of the heading analyzer: subtract 15 per skip. -/
def headingScoreFold (s : ℤ) : List Nat → ℤ
  | a :: b :: rest => headingScoreFold (if a + 1 < b then s - 15 else s) (b :: rest)
  | _ => s

/-- `pass`/`warning`/`fail` by two thresholds, the ternary used by the
analyzers. -/
def statusByThresh (p w : ℚ) (s : ℚ) : Status :=
  if s ≥ p then .pass else if s ≥ w then .warning else .fail

/-- The `heading-structure` Signal pushed by `analyzeHTML`. -/
def headingSignal (html : String) : CheckResult :=
  let h1Count := scanH1Count html.data
  let levels := scanHeadings html.data
  let base : ℤ := if h1Count = 0 then 100 - 40 else if 1 < h1Count then 100 - 30 else 100
  let score : ℤ := max 0 (headingScoreFold base levels)
  let issues : List String :=
    (if h1Count = 0 then ["No H1 found"]
     else if 1 < h1Count then ["Multiple H1s (" ++ toString h1Count ++ ") create topic ambiguity"]
     else []) ++ skipIssues levels
  { id := "heading-structure"
    label := "Heading Hierarchy"
    status := statusByThresh 80 50 (score : ℚ)
    score := (score : ℚ)
    details := if 0 < issues.length then String.intercalate ", " issues
               else "Perfect hierarchy with " ++ toString h1Count ++ " H1 and logical structure"
    recommendation := if (score : ℚ) < 80 then
        "Use exactly one H1 and maintain logical heading hierarchy (H1→H2→H3)"
      else "Excellent heading structure for AI comprehension" }

theorem headingScoreFold_eq :
    ∀ (l : List Nat) (s : ℤ), headingScoreFold s l = s - 15 * headingSkips l := by
  intro l
  induction l with
  | nil => intro s; simp [headingScoreFold, headingSkips]
  | cons a t ih =>
    intro s
    cases t with
    | nil => simp [headingScoreFold, headingSkips]
    | cons b rest =>
      rw [headingScoreFold, headingSkips, ih]
      by_cases hab : a + 1 < b
      · simp only [hab, if_true]
        push_cast
        ring
      · simp only [hab, if_false]
        push_cast
        ring

set_option maxHeartbeats 2000000 in
/-- C6: the heading-hierarchy score equals
`max 0 (100 − 40·[no h1] − 30·[multiple h1] − 15·skips)` (the −40/−30
penalties are mutually exclusive by construction), and on the concrete
inputs: no H1 → 60 with "No H1 found" in the details; one H1 with levels
[1,2,3] → 100, pass; two H1s without skips → 70. -/
theorem heading_hierarchy_scoring :
    (∀ html : String,
      (headingSignal html).score =
        ((max 0 (100 - (if scanH1Count html.data = 0 then 40 else 0)
            - (if 1 < scanH1Count html.data then 30 else 0)
            - 15 * (headingSkips (scanHeadings html.data) : ℤ)) : ℤ) : ℚ)) ∧
    (headingSignal "<h2>a</h2><h3>b</h3>").score = 60 ∧
    hasSub "No H1 found".data (headingSignal "<h2>a</h2><h3>b</h3>").details.data = true ∧
    (headingSignal "<h1>a</h1><h2>b</h2><h3>c</h3>").score = 100 ∧
    (headingSignal "<h1>a</h1><h2>b</h2><h3>c</h3>").status = Status.pass ∧
    (headingSignal "<h1>a</h1><h1>b</h1>").score = 70 := by
  refine ⟨?_, by decide, by decide, by decide, by decide, by decide⟩
  intro html
  simp only [headingSignal]
  rw [headingScoreFold_eq]
  by_cases h0 : scanH1Count html.data = 0
  · simp only [h0, if_true, if_false]
    norm_num
  · by_cases h1 : 1 < scanH1Count html.data
    · simp only [h0, h1, if_true, if_false]
      norm_num
    · simp only [h0, h1, if_false]
      norm_num

/-- `Math.round`: round half up, `⌊x + 1/2⌋`, computed via `Rat.floor` so
that concrete inputs evaluate in the kernel. -/
def jsRound (x : ℚ) : ℤ := Rat.floor (x + 1/2)

theorem jsRound_eq (x : ℚ) : jsRound x = round x := by
  rw [jsRound, round_eq, Rat.floor_def', Rat.floor_def]

/-! ## Readability, metadata, semantic and accessibility Signals -/

/-- The `readability` Signal pushed by `analyzeHTML` (route.ts:80-110),
computed from the extracted text. -/
def readabilitySignal (textContent : String) : CheckResult :=
  let raw := calculateReadability textContent
  let normalized : ℚ := if raw ≥ 70 then 100 else if raw ≥ 50 then 80 else if raw ≥ 30 then 50 else 20
  let st : Status := if raw ≥ 70 then .pass else if raw ≥ 50 then .pass
    else if raw ≥ 30 then .warning else .fail
  let det : String :=
    if raw ≥ 70 then "Very readable (Flesch: " ++ toString (jsRound raw) ++ ")"
    else if raw ≥ 50 then "Good readability (Flesch: " ++ toString (jsRound raw) ++ ")"
    else if raw ≥ 30 then "Difficult to read (Flesch: " ++ toString (jsRound raw) ++ ")"
    else "Very difficult (Flesch: " ++ toString (jsRound raw) ++ ")"
  { id := "readability", label := "Content Readability", status := st, score := normalized,
    details := det,
    recommendation := if normalized < 80 then
        "Simplify sentences and use clearer language for better AI comprehension"
      else "Content is clearly written and AI-friendly" }

/-- Truthiness of the metadata fields consulted by the metadata scorer. -/
structure PageMeta where
  ogTitle : Bool
  title : Bool
  ogDescription : Bool
  description : Bool
deriving DecidableEq, Repr

/-- Remainder after the first case-insensitive occurrence of `pat`. -/
def dropAfterCI (pat : List Char) : List Char → Option (List Char)
  | [] => none
  | c :: rest => if ciPrefix pat (c :: rest) then some ((c :: rest).drop pat.length)
    else dropAfterCI pat rest

/-- Length of the first capture of `/content="([^"]*)"/i`, or 0
(`descMatch?.[1]?.length || 0`). -/
def descLength (html : List Char) : Nat :=
  match dropAfterCI "content=\"".data html with
  | some rest => if rest.contains '"' then (rest.takeWhile (fun c => c ≠ '"')).length else 0
  | none => 0

/-- The `meta-tags` Signal pushed by `analyzeHTML` (route.ts:112-160). -/
def metaSignal (html : String) (m : PageMeta) : CheckResult :=
  let hasOgTitle := m.ogTitle || m.title || hasSub "og:title".data html.data ||
    hasSub "<title".data html.data
  let hasOgDescription := m.ogDescription || m.description ||
    hasSub "og:description".data html.data || hasSub "name=\"description\"".data html.data
  let dLen := descLength html.data
  let hasGoodDescLength := decide (70 ≤ dLen) && decide (dLen ≤ 160)
  let hasAuthor := hasSub "name=\"author\"".data html.data ||
    hasSub "property=\"article:author\"".data html.data
  let hasPublishDate := hasSub "property=\"article:published_time\"".data html.data ||
    hasSub "property=\"article:modified_time\"".data html.data
  let score1 : ℚ := 30 + (if hasOgTitle then 30 else if hasSub "<title".data html.data then 20 else 0)
  let score2 : ℚ := score1 + (if hasOgDescription then 25 + (if hasGoodDescLength then 10 else 0) else 0)
  let score3 : ℚ := score2 + (if hasAuthor then 10 else 0) + (if hasPublishDate then 10 else 0)
  let metaScore : ℚ := min 100 score3
  let metaDetails : List String :=
    (if hasOgTitle then ["Title ✓"]
     else if hasSub "<title".data html.data then ["Basic title"] else []) ++
    (if hasOgDescription then (if hasGoodDescLength then ["Description ✓"] else ["Description"])
     else []) ++
    (if hasAuthor then ["Author ✓"] else []) ++
    (if hasPublishDate then ["Date ✓"] else [])
  { id := "meta-tags", label := "Metadata Quality",
    status := statusByThresh 70 40 metaScore,
    score := metaScore,
    details := if 0 < metaDetails.length then String.intercalate ", " metaDetails
               else "Missing critical metadata",
    recommendation := if metaScore < 70 then
        "Add title, description (70-160 chars), author, and publish date metadata"
      else "Metadata provides excellent context for AI" }

def semanticTags : List String :=
  ["<article", "<nav", "<main", "<section", "<header", "<footer", "<aside"]

/-- The `semantic-html` Signal pushed by `analyzeHTML` (route.ts:162-177). -/
def semanticSignal (html : String) : CheckResult :=
  let semanticCount := (semanticTags.filter (fun t => hasSub t.data html.data)).length
  let hasAriaRoles := hasSub "role=\"".data html.data || hasSub "aria-".data html.data
  let isModernFramework := hasSub "__next".data html.data || hasSub "_app".data html.data ||
    hasSub "react".data html.data || hasSub "vue".data html.data || hasSub "svelte".data html.data
  let semanticScore : ℚ := min 100 ((semanticCount : ℚ) / 5 * 60 +
    (if hasAriaRoles then 20 else 0) + (if isModernFramework then 20 else 0))
  { id := "semantic-html", label := "Semantic HTML",
    status := statusByThresh 80 40 semanticScore,
    score := semanticScore,
    details := "Found " ++ toString semanticCount ++ " semantic HTML5 elements",
    recommendation := if semanticScore < 80 then
        "Use more semantic HTML5 elements (article, nav, main, section, etc.)"
      else "Excellent use of semantic HTML" }

/-- The unrounded accessibility score (`accessibilityScore` in the
source), before `Math.round` is applied for the stored `score`. -/
def accessibilityRawScore (html : String) : ℚ :=
  let hasAltText := countSub 'a' "lt=\"".data html.data
  let imgCount := countSub '<' "img".data html.data
  let altTextRatio : ℚ := if 0 < imgCount then ((hasAltText : ℚ) / (imgCount : ℚ)) * 100 else 100
  let imageScore : ℚ := if imgCount = 0 then 40 else altTextRatio * (4/10)
  min 100 (imageScore +
    (if hasSub "aria-label".data html.data then 20 else 0) +
    (if hasSub "aria-describedby".data html.data then 10 else 0) +
    (if hasSub "role=\"".data html.data then 15 else 0) +
    (if hasSub "lang=\"".data html.data then 15 else 0))

/-- The `accessibility` Signal pushed by `analyzeHTML` (route.ts:179-198):
`status` is thresholded on the unrounded score, while the stored `score`
is the rounded one. -/
def accessibilitySignal (html : String) : CheckResult :=
  let hasAltText := countSub 'a' "lt=\"".data html.data
  let imgCount := countSub '<' "img".data html.data
  let altTextRatio : ℚ := if 0 < imgCount then ((hasAltText : ℚ) / (imgCount : ℚ)) * 100 else 100
  let accQ := accessibilityRawScore html
  { id := "accessibility", label := "Accessibility",
    status := statusByThresh 80 50 accQ,
    score := ((jsRound accQ : ℤ) : ℚ),
    details := toString (jsRound altTextRatio) ++ "% images have alt text, ARIA labels: " ++
      (if hasSub "aria-label".data html.data then "Yes" else "No"),
    recommendation := if accQ < 80 then
        "Add alt text to all images and use ARIA labels for interactive elements"
      else "Good accessibility implementation" }

/-- `analyzeHTML` (route.ts:42-200): the five content Signals in push
order. -/
def analyzeHTML (html : String) (m : PageMeta) : List CheckResult :=
  [headingSignal html,
   readabilitySignal (extractTextContent html),
   metaSignal html m,
   semanticSignal html,
   accessibilitySignal html]

/-! ## Auxiliary file probes (`checkAdditionalFiles`, route.ts:202-279) -/

/-- Default Signals used when a probe finds nothing (route.ts:219-221). -/
def robotsDefault : CheckResult :=
  { id := "robots-txt", label := "Robots.txt", status := .fail, score := 0,
    details := "No robots.txt file found",
    recommendation := "Create a robots.txt file with AI crawler directives" }

def sitemapDefault : CheckResult :=
  { id := "sitemap", label := "Sitemap", status := .fail, score := 0,
    details := "No sitemap.xml found",
    recommendation := "Generate and submit an XML sitemap" }

def llmsDefault : CheckResult :=
  { id := "llms-txt", label := "LLMs.txt", status := .fail, score := 0,
    details := "No llms.txt file found",
    recommendation := "Add an llms.txt file to define AI usage permissions" }

/-- Fueled scan for `/Sitemap:\s*(.+)/gi`: returns the raw captures in
discovery order.  After the literal `sitemap:` the greedy `\s*` may cross
line breaks; `(.+)` then takes the rest of that line.  When only
whitespace remains to the end of input, the engine backtracks `\s*` until
`(.+)` can match: the capture is the last non-line-terminator whitespace
character (every character after it is a line terminator), and scanning
resumes on that trailing line-terminator run; if the run is all line
terminators the match fails and scanning resumes one character later. -/
def sitemapDirectivesF : Nat → List Char → List (List Char)
  | 0, _ => []
  | _, [] => []
  | fuel + 1, c :: rest =>
    if ciPrefix "sitemap:".data (c :: rest) then
      let afterColon := (c :: rest).drop 8
      let w := afterColon.takeWhile isWS
      match afterColon.dropWhile isWS with
      | r :: rs =>
        let cap := (r :: rs).takeWhile (fun x => !isLineTerm x)
        cap :: sitemapDirectivesF fuel ((r :: rs).drop cap.length)
      | [] =>
        match w.reverse.dropWhile isLineTerm with
        | last :: _ =>
          [last] :: sitemapDirectivesF fuel ((w.reverse.takeWhile isLineTerm).reverse)
        | [] => sitemapDirectivesF fuel rest
    else sitemapDirectivesF fuel rest

/-- `sitemapUrls` extracted from robots.txt: each match with its
`Sitemap:\s*` prefix removed and trimmed. -/
def extractSitemapUrls (robotsText : String) : List String :=
  (sitemapDirectivesF robotsText.data.length robotsText.data).map
    (fun cap => String.mk (trimWS cap))

/-- The `robots-txt` Signal: `none` models a failed or non-ok fetch. -/
def robotsSignal (robotsBody : Option String) : CheckResult :=
  match robotsBody with
  | none => robotsDefault
  | some txt =>
    let hasUserAgent := hasSub "user-agent".data (txt.data.map Char.toLower)
    let urls := extractSitemapUrls txt
    let score : ℚ := (if hasUserAgent then 60 else 0) + (if 0 < urls.length then 40 else 0)
    { id := "robots-txt", label := "Robots.txt",
      status := statusByThresh 80 40 score, score := score,
      details := "Robots.txt found" ++
        (if 0 < urls.length then " with " ++ toString urls.length ++ " sitemap reference(s)"
         else ""),
      recommendation := if score < 80 then "Add sitemap reference to robots.txt"
        else "Robots.txt properly configured" }

/-- The sitemap URLs discovered from robots.txt (empty when the fetch
failed). -/
def robotsSitemapUrls (robotsBody : Option String) : List String :=
  match robotsBody with
  | none => []
  | some txt => extractSitemapUrls txt

/-- `isValidLlms` (route.ts:243): length over 10, no `<!DOCTYPE`, no
`<html`/`<HTML`, and none of the lowercase not-found phrases. -/
def isValidLlms (body : String) : Bool :=
  decide (10 < body.length) &&
  !(hasSub "<!DOCTYPE".data body.data) &&
  !(hasSub "<html".data body.data) &&
  !(hasSub "<HTML".data body.data) &&
  !(hasSub "404 not found".data (body.data.map Char.toLower)) &&
  !(hasSub "page not found".data (body.data.map Char.toLower)) &&
  !(hasSub "cannot be found".data (body.data.map Char.toLower))

/-- The Signal written on a valid llms hit for the given filename. -/
def llmsHit (filename : String) : CheckResult :=
  { id := "llms-txt", label := "LLMs.txt", status := .pass, score := 100,
    details := filename ++ " file found with AI usage guidelines",
    recommendation := "Great! You have defined AI usage permissions" }

/-- The `llms-txt` Signal produced by the three variant probes
(`llms.txt`, `LLMs.txt`, `llms-full.txt`); each successful response whose
body validates overwrites the check, modelled in file order. -/
def llmsSignal (r1 r2 r3 : Option String) : CheckResult :=
  [("llms.txt", r1), ("LLMs.txt", r2), ("llms-full.txt", r3)].foldl
    (fun acc fr =>
      match fr.2 with
      | some body => if isValidLlms body then llmsHit fr.1 else acc
      | none => acc) llmsDefault

/-- `isValidSitemap` (route.ts:266). -/
def isValidSitemap (content : String) : Bool :=
  (hasSub "<?xml".data content.data || hasSub "<urlset".data content.data ||
   hasSub "<sitemapindex".data content.data || hasSub "<url>".data content.data ||
   hasSub "<sitemap>".data content.data) &&
  !(hasSub "<!DOCTYPE html".data content.data)

/-- The five conventional sitemap locations (route.ts:254). -/
def commonLocations (cleanUrl : String) : List String :=
  [cleanUrl ++ "/sitemap.xml", cleanUrl ++ "/sitemap_index.xml",
   cleanUrl ++ "/sitemap-index.xml", cleanUrl ++ "/sitemaps/sitemap.xml",
   cleanUrl ++ "/sitemap/sitemap.xml"]

/-- The candidate-building loop (route.ts:255-259): push each conventional
location not already present. -/
def addCandidates (acc : List String) : List String → List String
  | [] => acc
  | u :: rest => addCandidates (if acc.contains u then acc else acc ++ [u]) rest

/-- `possibleSitemapUrls`: robots-discovered URLs first, then the
conventional locations with duplicates skipped. -/
def sitemapCandidates (sitemapUrls : List String) (cleanUrl : String) : List String :=
  addCandidates sitemapUrls (commonLocations cleanUrl)

/-- `s.replace(pat, rep)` at the String level (first occurrence; an empty
pattern inserts at the front, as in JS). -/
def strReplaceFirst (pat rep s : String) : String :=
  match pat.data with
  | [] => rep ++ s
  | d :: ps => String.mk (replaceFirst d ps rep.data s.data)

/-- The winning sitemap Signal for candidate `u` (route.ts:269). -/
def sitemapHit (robotsUrls : List String) (cleanUrl u : String) : CheckResult :=
  { id := "sitemap", label := "Sitemap", status := .pass, score := 100,
    details := "Valid XML sitemap found" ++
      (if robotsUrls.contains u then " (referenced in robots.txt)"
       else " at " ++ strReplaceFirst cleanUrl "" u),
    recommendation := "Sitemap is properly configured" }

/-- The sequential candidate walk (route.ts:261-276): stop at the first
candidate whose fetch succeeds and whose body validates; fetch errors and
non-ok responses are modelled as `none`. -/
def sitemapWalk (fetch : String → Option String) (robotsUrls : List String)
    (cleanUrl : String) : List String → CheckResult
  | [] => sitemapDefault
  | u :: rest =>
    match fetch u with
    | some content =>
      if isValidSitemap content then sitemapHit robotsUrls cleanUrl u
      else sitemapWalk fetch robotsUrls cleanUrl rest
    | none => sitemapWalk fetch robotsUrls cleanUrl rest

/-- `checkAdditionalFiles`: the three probe Signals, given the robots body,
the three llms variant bodies, and the sitemap fetch oracle. -/
def checkAdditionalFiles (robotsBody r1 r2 r3 : Option String)
    (fetch : String → Option String) (cleanUrl : String) :
    CheckResult × CheckResult × CheckResult :=
  let urls := robotsSitemapUrls robotsBody
  (robotsSignal robotsBody,
   sitemapWalk fetch urls cleanUrl (sitemapCandidates urls cleanUrl),
   llmsSignal r1 r2 r3)

/-! ## The score aggregator (route.ts:339-367) -/

/-- The fixed per-signal weight table, default 1. -/
def weightOf (id : String) : ℚ :=
  if id = "readability" then 15/10
  else if id = "heading-structure" then 14/10
  else if id = "meta-tags" then 12/10
  else if id = "robots-txt" then 9/10
  else if id = "sitemap" then 8/10
  else if id = "llms-txt" then 3/10
  else if id = "semantic-html" then 1
  else if id = "accessibility" then 9/10
  else 1

/-- The accumulation loop for `weightedSum` and `totalWeight`. -/
def weightedTotals (checks : List CheckResult) : ℚ × ℚ :=
  checks.foldl (fun st c => (st.1 + c.score * weightOf c.id, st.2 + weightOf c.id)) (0, 0)

/-- `contentSignals`: how many of readability/heading-structure/meta-tags
scored at least 60. -/
def contentSignalCount (checks : List CheckResult) : Nat :=
  (checks.filter (fun c =>
    (c.id == "readability" || c.id == "heading-structure" || c.id == "meta-tags") &&
    decide (60 ≤ c.score))).length

/-- The aggregation of route.ts:339-367: weighted rounded base, content
bonus, floor-raise, reputation bonus, cap at 100. -/
def computeOverallScore (checks : List CheckResult) (reputationBonus : ℤ) : ℤ :=
  let wt := weightedTotals checks
  let base0 : ℤ := jsRound (wt.1 / wt.2)
  let cs := contentSignalCount checks
  let base1 : ℤ := if 3 ≤ cs then base0 + 15 else if 2 ≤ cs then base0 + 10 else base0
  let base2 : ℤ := if base1 < 35 && checks.any (fun c => decide (80 ≤ c.score)) then 35 else base1
  min 100 (base2 + reputationBonus)

/-- `allChecks` assembly order (route.ts:337): llms, robots, sitemap, then
the five content Signals. -/
def allChecksList (llms robots sitemap : CheckResult) (htmlChecks : List CheckResult) :
    List CheckResult :=
  llms :: robots :: sitemap :: htmlChecks

/-- A Signal with the given id and score, as far as the aggregator reads
it (the aggregator uses only `id` and `score`). -/
def mkCheck (id label : String) (sc : ℚ) : CheckResult :=
  ⟨id, label, .fail, sc, "", ""⟩

/-- C1: for every set of 8 Signals and every reputation bonus, the
aggregator computes exactly `min 100 (floorRaise (bonus (round (Σ score·w /
Σ w))) + reputation)` with the fixed weight table, the +15/+10 content
bonus, and the 35 floor-raise, in that order; and with all eight scores at
0 and no reputation bonus the overall score is 0 (the floor-raise does not
fire). -/
theorem aggregator_order_and_zero :
    (∀ (lt rb sm hd rd mt sh ac : ℚ) (rep : ℤ),
      computeOverallScore
        (allChecksList (mkCheck "llms-txt" "LLMs.txt" lt) (mkCheck "robots-txt" "Robots.txt" rb)
          (mkCheck "sitemap" "Sitemap" sm)
          [mkCheck "heading-structure" "Heading Hierarchy" hd,
           mkCheck "readability" "Content Readability" rd,
           mkCheck "meta-tags" "Metadata Quality" mt,
           mkCheck "semantic-html" "Semantic HTML" sh,
           mkCheck "accessibility" "Accessibility" ac]) rep =
      (let base0 : ℤ := round ((rd * (3/2) + hd * (7/5) + mt * (6/5) + sh * 1 + rb * (9/10) +
          ac * (9/10) + sm * (4/5) + lt * (3/10)) /
          ((3:ℚ)/2 + 7/5 + 6/5 + 1 + 9/10 + 9/10 + 4/5 + 3/10));
       let base1 : ℤ := base0 + (if 60 ≤ rd ∧ 60 ≤ hd ∧ 60 ≤ mt then 15
         else if (60 ≤ rd ∧ 60 ≤ hd) ∨ (60 ≤ rd ∧ 60 ≤ mt) ∨ (60 ≤ hd ∧ 60 ≤ mt) then 10 else 0);
       let base2 : ℤ := if base1 < 35 ∧ (80 ≤ rd ∨ 80 ≤ hd ∨ 80 ≤ mt ∨ 80 ≤ sh ∨ 80 ≤ ac ∨
           80 ≤ rb ∨ 80 ≤ sm ∨ 80 ≤ lt) then 35 else base1;
       min 100 (base2 + rep))) ∧
    computeOverallScore
      (allChecksList (mkCheck "llms-txt" "LLMs.txt" 0) (mkCheck "robots-txt" "Robots.txt" 0)
        (mkCheck "sitemap" "Sitemap" 0)
        [mkCheck "heading-structure" "Heading Hierarchy" 0,
         mkCheck "readability" "Content Readability" 0,
         mkCheck "meta-tags" "Metadata Quality" 0,
         mkCheck "semantic-html" "Semantic HTML" 0,
         mkCheck "accessibility" "Accessibility" 0]) 0 = 0 := by
  have hmain : ∀ (lt rb sm hd rd mt sh ac : ℚ) (rep : ℤ),
      computeOverallScore
        (allChecksList (mkCheck "llms-txt" "LLMs.txt" lt) (mkCheck "robots-txt" "Robots.txt" rb)
          (mkCheck "sitemap" "Sitemap" sm)
          [mkCheck "heading-structure" "Heading Hierarchy" hd,
           mkCheck "readability" "Content Readability" rd,
           mkCheck "meta-tags" "Metadata Quality" mt,
           mkCheck "semantic-html" "Semantic HTML" sh,
           mkCheck "accessibility" "Accessibility" ac]) rep =
      (let base0 : ℤ := round ((rd * (3/2) + hd * (7/5) + mt * (6/5) + sh * 1 + rb * (9/10) +
          ac * (9/10) + sm * (4/5) + lt * (3/10)) /
          ((3:ℚ)/2 + 7/5 + 6/5 + 1 + 9/10 + 9/10 + 4/5 + 3/10));
       let base1 : ℤ := base0 + (if 60 ≤ rd ∧ 60 ≤ hd ∧ 60 ≤ mt then 15
         else if (60 ≤ rd ∧ 60 ≤ hd) ∨ (60 ≤ rd ∧ 60 ≤ mt) ∨ (60 ≤ hd ∧ 60 ≤ mt) then 10 else 0);
       let base2 : ℤ := if base1 < 35 ∧ (80 ≤ rd ∨ 80 ≤ hd ∨ 80 ≤ mt ∨ 80 ≤ sh ∨ 80 ≤ ac ∨
           80 ≤ rb ∨ 80 ≤ sm ∨ 80 ≤ lt) then 35 else base1;
       min 100 (base2 + rep)) := by
    intro lt rb sm hd rd mt sh ac rep
    have hround : jsRound ((lt * (3 / 10) + rb * (9 / 10) + sm * (8 / 10) + hd * (14 / 10) +
          rd * (15 / 10) + mt * (12 / 10) + sh + ac * (9 / 10)) /
          ((3:ℚ) / 10 + 9 / 10 + 8 / 10 + 14 / 10 + 15 / 10 + 12 / 10 + 1 + 9 / 10)) =
        round ((rd * (3/2) + hd * (7/5) + mt * (6/5) + sh * 1 + rb * (9/10) +
          ac * (9/10) + sm * (4/5) + lt * (3/10)) /
          ((3:ℚ)/2 + 7/5 + 6/5 + 1 + 9/10 + 9/10 + 4/5 + 3/10)) := by
      rw [jsRound_eq]
      congr 1
      norm_num
      ring
    have hor : (80 ≤ lt ∨ 80 ≤ rb ∨ 80 ≤ sm ∨ 80 ≤ hd ∨ 80 ≤ rd ∨ 80 ≤ mt ∨ 80 ≤ sh ∨
        80 ≤ ac) ↔ (80 ≤ rd ∨ 80 ≤ hd ∨ 80 ≤ mt ∨ 80 ≤ sh ∨ 80 ≤ ac ∨ 80 ≤ rb ∨ 80 ≤ sm ∨
        80 ≤ lt) := by
      tauto
    by_cases h1 : 60 ≤ rd <;> by_cases h2 : 60 ≤ hd <;> by_cases h3 : 60 ≤ mt <;>
      simp [computeOverallScore, allChecksList, weightedTotals, contentSignalCount, mkCheck,
        weightOf, h1, h2, h3, hround, hor]
  refine ⟨hmain, ?_⟩
  rw [hmain 0 0 0 0 0 0 0 0 0]
  norm_num

/-! ## Signal invariants: score range and status purity -/

theorem jsRound_le_jsRound {a b : ℚ} (h : a ≤ b) : jsRound a ≤ jsRound b := by
  rw [jsRound_eq, jsRound_eq, round_eq, round_eq]
  exact Int.floor_le_floor (by linarith)

theorem jsRound_zero : jsRound 0 = 0 := by
  rw [jsRound_eq]
  exact round_zero

theorem jsRound_hundred : jsRound 100 = 100 := by
  rw [jsRound_eq]
  have : ((100 : ℤ) : ℚ) = 100 := by norm_num
  rw [← this, round_intCast]

theorem jsRound_bounds {x : ℚ} (h0 : 0 ≤ x) (h100 : x ≤ 100) :
    0 ≤ jsRound x ∧ jsRound x ≤ 100 := by
  constructor
  · have := jsRound_le_jsRound h0
    rwa [jsRound_zero] at this
  · have := jsRound_le_jsRound h100
    rwa [jsRound_hundred] at this

theorem headingSignal_bounds (html : String) :
    0 ≤ (headingSignal html).score ∧ (headingSignal html).score ≤ 100 := by
  simp only [headingSignal]
  constructor
  · exact_mod_cast le_max_left 0 _
  · have hX : headingScoreFold
        (if scanH1Count html.data = 0 then (100:ℤ) - 40
         else if 1 < scanH1Count html.data then 100 - 30 else 100)
        (scanHeadings html.data) ≤ 100 := by
      rw [headingScoreFold_eq]
      have h15 : (0:ℤ) ≤ 15 * (headingSkips (scanHeadings html.data) : ℤ) := by positivity
      split_ifs <;> omega
    exact_mod_cast max_le (by norm_num) hX

theorem readabilitySignal_bounds (t : String) :
    0 ≤ (readabilitySignal t).score ∧ (readabilitySignal t).score ≤ 100 := by
  simp only [readabilitySignal]
  split_ifs <;> norm_num

theorem metaSignal_bounds (html : String) (m : PageMeta) :
    0 ≤ (metaSignal html m).score ∧ (metaSignal html m).score ≤ 100 := by
  simp only [metaSignal]
  refine ⟨le_min (by norm_num) ?_, min_le_left _ _⟩
  split_ifs <;> norm_num

theorem semanticSignal_bounds (html : String) :
    0 ≤ (semanticSignal html).score ∧ (semanticSignal html).score ≤ 100 := by
  simp only [semanticSignal]
  refine ⟨le_min (by norm_num) ?_, min_le_left _ _⟩
  split_ifs <;> positivity

theorem accessibilityRawScore_bounds (html : String) :
    0 ≤ accessibilityRawScore html ∧ accessibilityRawScore html ≤ 100 := by
  simp only [accessibilityRawScore]
  refine ⟨le_min (by norm_num) ?_, min_le_left _ _⟩
  split_ifs <;> positivity

theorem accessibilitySignal_bounds (html : String) :
    0 ≤ (accessibilitySignal html).score ∧ (accessibilitySignal html).score ≤ 100 := by
  obtain ⟨h0, h100⟩ := accessibilityRawScore_bounds html
  obtain ⟨hr0, hr100⟩ := jsRound_bounds h0 h100
  simp only [accessibilitySignal]
  constructor
  · exact_mod_cast hr0
  · exact_mod_cast hr100

/-- The status band actually realised by the readability Signal as a
function of its stored (normalized) score. -/
def readabilityStatusOf (s : ℚ) : Status :=
  if s = 50 then .warning else if s = 20 then .fail else .pass

theorem headingSignal_status (html : String) :
    (headingSignal html).status = statusByThresh 80 50 (headingSignal html).score := rfl

theorem readabilitySignal_status (t : String) :
    (readabilitySignal t).status = readabilityStatusOf (readabilitySignal t).score := by
  simp only [readabilitySignal]
  split_ifs <;> simp [readabilityStatusOf]

theorem metaSignal_status (html : String) (m : PageMeta) :
    (metaSignal html m).status = statusByThresh 70 40 (metaSignal html m).score := rfl

theorem semanticSignal_status (html : String) :
    (semanticSignal html).status = statusByThresh 80 40 (semanticSignal html).score := rfl

theorem accessibilitySignal_status_unrounded (html : String) :
    (accessibilitySignal html).status = statusByThresh 80 50 (accessibilityRawScore html) := rfl

theorem robotsSignal_bounds (b : Option String) :
    0 ≤ (robotsSignal b).score ∧ (robotsSignal b).score ≤ 100 := by
  cases b with
  | none => exact ⟨by norm_num [robotsSignal, robotsDefault], by norm_num [robotsSignal, robotsDefault]⟩
  | some txt =>
    simp only [robotsSignal]
    split_ifs <;> norm_num

theorem robotsSignal_status (b : Option String) :
    (robotsSignal b).status = statusByThresh 80 40 (robotsSignal b).score := by
  cases b with
  | none =>
    simp only [robotsSignal, robotsDefault, statusByThresh]
    norm_num
  | some txt => rfl

theorem llmsSignal_cases (r1 r2 r3 : Option String) :
    llmsSignal r1 r2 r3 = llmsDefault ∨ ∃ f, llmsSignal r1 r2 r3 = llmsHit f := by
  simp only [llmsSignal, List.foldl]
  rcases r1 with _ | b1 <;> rcases r2 with _ | b2 <;> rcases r3 with _ | b3 <;>
    dsimp only <;>
    first
      | (split_ifs <;>
          first
            | exact Or.inl rfl
            | exact Or.inr ⟨_, rfl⟩)
      | exact Or.inl rfl

theorem llmsSignal_bounds (r1 r2 r3 : Option String) :
    0 ≤ (llmsSignal r1 r2 r3).score ∧ (llmsSignal r1 r2 r3).score ≤ 100 := by
  rcases llmsSignal_cases r1 r2 r3 with h | ⟨f, h⟩ <;> rw [h] <;>
    norm_num [llmsDefault, llmsHit]

theorem llmsSignal_status (r1 r2 r3 : Option String) :
    (llmsSignal r1 r2 r3).status = statusByThresh 80 50 (llmsSignal r1 r2 r3).score := by
  rcases llmsSignal_cases r1 r2 r3 with h | ⟨f, h⟩ <;> rw [h] <;>
    norm_num [llmsDefault, llmsHit, statusByThresh]

theorem sitemapWalk_cases (fetch : String → Option String) (urls : List String)
    (cleanUrl : String) :
    ∀ cands, sitemapWalk fetch urls cleanUrl cands = sitemapDefault ∨
      ∃ u, sitemapWalk fetch urls cleanUrl cands = sitemapHit urls cleanUrl u := by
  intro cands
  induction cands with
  | nil => exact Or.inl rfl
  | cons u rest ih =>
    rw [sitemapWalk]
    cases fetch u with
    | none => exact ih
    | some content =>
      dsimp only
      split_ifs
      · exact Or.inr ⟨u, rfl⟩
      · exact ih

theorem sitemapWalk_bounds (fetch : String → Option String) (urls : List String)
    (cleanUrl : String) (cands : List String) :
    0 ≤ (sitemapWalk fetch urls cleanUrl cands).score ∧
      (sitemapWalk fetch urls cleanUrl cands).score ≤ 100 := by
  rcases sitemapWalk_cases fetch urls cleanUrl cands with h | ⟨u, h⟩ <;> rw [h] <;>
    norm_num [sitemapDefault, sitemapHit]

theorem sitemapWalk_status (fetch : String → Option String) (urls : List String)
    (cleanUrl : String) (cands : List String) :
    (sitemapWalk fetch urls cleanUrl cands).status =
      statusByThresh 80 50 (sitemapWalk fetch urls cleanUrl cands).score := by
  rcases sitemapWalk_cases fetch urls cleanUrl cands with h | ⟨u, h⟩ <;> rw [h] <;>
    norm_num [sitemapDefault, sitemapHit, statusByThresh]

/-- Second component of `checkAdditionalFiles` output listed for the range
statement. -/
def probeChecks (robotsBody r1 r2 r3 : Option String)
    (fetch : String → Option String) (cleanUrl : String) : List CheckResult :=
  [(checkAdditionalFiles robotsBody r1 r2 r3 fetch cleanUrl).1,
   (checkAdditionalFiles robotsBody r1 r2 r3 fetch cleanUrl).2.1,
   (checkAdditionalFiles robotsBody r1 r2 r3 fetch cleanUrl).2.2]

/-- C4 (amended): every Signal produced by the analyzers and probes has
`0 ≤ score ≤ 100`; the status of heading-structure, readability,
meta-tags, semantic-html, robots-txt, sitemap and llms-txt is a pure
function of that Signal's stored score and its fixed thresholds; the
accessibility status is instead thresholded on the unrounded accessibility
value, of which the stored score is the rounding. -/
theorem signal_range_and_status_purity :
    (∀ (html : String) (m : PageMeta), ∀ c ∈ analyzeHTML html m,
      0 ≤ c.score ∧ c.score ≤ 100) ∧
    (∀ (robotsBody r1 r2 r3 : Option String) (fetch : String → Option String)
      (cleanUrl : String), ∀ c ∈ probeChecks robotsBody r1 r2 r3 fetch cleanUrl,
      0 ≤ c.score ∧ c.score ≤ 100) ∧
    (∀ html, (headingSignal html).status = statusByThresh 80 50 (headingSignal html).score) ∧
    (∀ t, (readabilitySignal t).status = readabilityStatusOf (readabilitySignal t).score) ∧
    (∀ html m, (metaSignal html m).status = statusByThresh 70 40 (metaSignal html m).score) ∧
    (∀ html, (semanticSignal html).status = statusByThresh 80 40 (semanticSignal html).score) ∧
    (∀ b, (robotsSignal b).status = statusByThresh 80 40 (robotsSignal b).score) ∧
    (∀ r1 r2 r3, (llmsSignal r1 r2 r3).status =
      statusByThresh 80 50 (llmsSignal r1 r2 r3).score) ∧
    (∀ fetch urls cleanUrl cands, (sitemapWalk fetch urls cleanUrl cands).status =
      statusByThresh 80 50 (sitemapWalk fetch urls cleanUrl cands).score) ∧
    (∀ html, (accessibilitySignal html).status =
      statusByThresh 80 50 (accessibilityRawScore html)) := by
  refine ⟨?_, ?_, headingSignal_status, readabilitySignal_status, metaSignal_status,
    semanticSignal_status, robotsSignal_status, llmsSignal_status, sitemapWalk_status,
    accessibilitySignal_status_unrounded⟩
  · intro html m c hc
    simp only [analyzeHTML, List.mem_cons, List.not_mem_nil, or_false] at hc
    rcases hc with rfl | rfl | rfl | rfl | rfl
    · exact headingSignal_bounds html
    · exact readabilitySignal_bounds _
    · exact metaSignal_bounds html m
    · exact semanticSignal_bounds html
    · exact accessibilitySignal_bounds html
  · intro robotsBody r1 r2 r3 fetch cleanUrl c hc
    simp only [probeChecks, checkAdditionalFiles, List.mem_cons, List.not_mem_nil,
      or_false] at hc
    rcases hc with rfl | rfl | rfl
    · exact robotsSignal_bounds robotsBody
    · exact sitemapWalk_bounds _ _ _ _
    · exact llmsSignal_bounds r1 r2 r3

/-- 80 `<img` occurrences, 39 `alt="` occurrences, and all four ARIA and
language markers: the unrounded accessibility value is 79.5. -/
def htmlA : String :=
  String.join (List.replicate 80 "<img") ++ String.join (List.replicate 39 "alt=\"") ++
    "aria-labelaria-describedbyrole=\"lang=\""

/-- No images and three markers: the accessibility value is exactly 80. -/
def htmlB : String := "aria-describedbyrole=\"lang=\""

set_option maxHeartbeats 8000000 in
set_option maxRecDepth 10000 in
/-- C4 counterexample: two inputs whose accessibility Signals carry the
same stored score 80 but different statuses (79.5 rounds to 80 but is
below the pass threshold), so `status` is not a function of the stored
`score`. -/
theorem accessibility_status_not_score_function :
    (accessibilitySignal htmlA).score = (accessibilitySignal htmlB).score ∧
    (accessibilitySignal htmlA).status = Status.warning ∧
    (accessibilitySignal htmlB).status = Status.pass := by
  have ha1 : countSub 'a' "lt=\"".data htmlA.data = 39 := by decide
  have ha2 : countSub '<' "img".data htmlA.data = 80 := by decide
  have ha3 : hasSub "aria-label".data htmlA.data = true := by decide
  have ha4 : hasSub "aria-describedby".data htmlA.data = true := by decide
  have ha5 : hasSub "role=\"".data htmlA.data = true := by decide
  have ha6 : hasSub "lang=\"".data htmlA.data = true := by decide
  have hb1 : countSub 'a' "lt=\"".data htmlB.data = 0 := by decide
  have hb2 : countSub '<' "img".data htmlB.data = 0 := by decide
  have hb3 : hasSub "aria-label".data htmlB.data = false := by decide
  have hb4 : hasSub "aria-describedby".data htmlB.data = true := by decide
  have hb5 : hasSub "role=\"".data htmlB.data = true := by decide
  have hb6 : hasSub "lang=\"".data htmlB.data = true := by decide
  have hrawA : accessibilityRawScore htmlA = 159/2 := by
    simp only [accessibilityRawScore, ha1, ha2, ha3, ha4, ha5, ha6]
    norm_num
  have hrawB : accessibilityRawScore htmlB = 80 := by
    simp only [accessibilityRawScore, hb1, hb2, hb3, hb4, hb5, hb6]
    norm_num
  have hroundA : jsRound (159/2) = 80 := by
    rw [jsRound_eq]
    norm_num [round_eq]
  have hroundB : jsRound (80 : ℚ) = 80 := by
    rw [jsRound_eq]
    norm_num [round_eq]
  refine ⟨?_, ?_, ?_⟩
  · show ((jsRound (accessibilityRawScore htmlA) : ℤ) : ℚ) =
      ((jsRound (accessibilityRawScore htmlB) : ℤ) : ℚ)
    rw [hrawA, hrawB, hroundA, hroundB]
  · show statusByThresh 80 50 (accessibilityRawScore htmlA) = Status.warning
    rw [hrawA]
    norm_num [statusByThresh]
  · show statusByThresh 80 50 (accessibilityRawScore htmlB) = Status.pass
    rw [hrawB]
    norm_num [statusByThresh]

/-! ## llms.txt validity (C7) -/

theorem hasSub_iff_substring {p l : List Char} : hasSub p l = true ↔ p <:+: l := by
  induction l with
  | nil => simp [hasSub, List.infix_nil, List.isEmpty_iff]
  | cons c rest ih =>
    simp [hasSub, List.isPrefixOf_iff_prefix, ih, List.infix_cons_iff]

/-- C7: a probed llms body counts as a valid hit iff it is longer than 10
characters, contains neither the doctype marker nor an `<html`/`<HTML`
tag, and contains none of the not-found phrases case-insensitively; and a
successful response whose body contains "404 Not Found" leaves the
llms-txt Signal at its default (score 0, fail). -/
theorem llms_validity_iff :
    (∀ body : String, isValidLlms body = true ↔
      (10 < body.length ∧ ¬("<!DOCTYPE".data <:+: body.data) ∧
       ¬("<html".data <:+: body.data) ∧ ¬("<HTML".data <:+: body.data) ∧
       ¬("404 not found".data <:+: body.data.map Char.toLower) ∧
       ¬("page not found".data <:+: body.data.map Char.toLower) ∧
       ¬("cannot be found".data <:+: body.data.map Char.toLower))) ∧
    (∀ body : String, "404 Not Found".data <:+: body.data →
      llmsSignal (some body) none none = llmsDefault) := by
  constructor
  · intro body
    simp only [isValidLlms, Bool.and_eq_true, Bool.not_eq_true', ← hasSub_iff_substring,
      Bool.not_eq_true, decide_eq_true_eq]
    tauto
  · intro body h
    have h2 : hasSub "404 not found".data (body.data.map Char.toLower) = true := by
      rw [hasSub_iff_substring]
      have hm := List.IsInfix.map Char.toLower h
      have heq : "404 Not Found".data.map Char.toLower = "404 not found".data := by decide
      rwa [heq] at hm
    have hv : isValidLlms body = false := by
      simp [isValidLlms, h2]
    simp [llmsSignal, hv]

/-- Witness for C7 at the concrete body `"404 Not Found"`. -/
theorem llms_validity_witness :
    llmsSignal (some "404 Not Found") none none = llmsDefault :=
  llms_validity_iff.2 "404 Not Found" (by decide)

/-! ## Sitemap walk properties (C8) -/

theorem append_left_cancel_str {c a b : String} (h : c ++ a = c ++ b) : a = b := by
  have hd : c.data ++ a.data = c.data ++ b.data := by
    have := congrArg String.data h
    simpa [String.data_append] using this
  have hab := List.append_cancel_left hd
  cases a with
  | mk da =>
    cases b with
    | mk db => exact congrArg String.mk hab

theorem nodup_commonLocations (c : String) : (commonLocations c).Nodup := by
  have hinj : ∀ a b : String, a ≠ b → ¬ (c ++ a = c ++ b) :=
    fun a b hne h => hne (append_left_cancel_str h)
  simp only [commonLocations, List.nodup_cons, List.mem_cons, List.mem_singleton,
    List.not_mem_nil, or_false, List.nodup_nil, and_true]
  push_neg
  repeat' apply And.intro
  all_goals first
    | trivial
    | (refine hinj _ _ ?_; decide)

theorem addCandidates_eq :
    ∀ (l acc : List String), l.Nodup →
      addCandidates acc l = acc ++ l.filter (fun u => !acc.contains u) := by
  intro l
  induction l with
  | nil => intro acc _; simp [addCandidates]
  | cons u rest ih =>
    intro acc hnd
    rcases List.nodup_cons.mp hnd with ⟨hu, hrest⟩
    rw [addCandidates]
    by_cases hmem : acc.contains u
    · simp only [hmem, if_true]
      rw [ih acc hrest]
      have hmem2 : u ∈ acc := by simpa using hmem
      simp [List.filter_cons, hmem2]
    · simp only [hmem, Bool.false_eq_true, if_false]
      rw [ih (acc ++ [u]) hrest]
      have hfeq : rest.filter (fun x => !(acc ++ [u]).contains x) =
          rest.filter (fun x => !acc.contains x) := by
        apply List.filter_congr
        intro x hx
        have hxu : x ≠ u := fun hequ => hu (hequ ▸ hx)
        simp [List.mem_append, hxu]
      rw [hfeq]
      have hmem2 : u ∉ acc := by simpa using hmem
      simp [List.filter_cons, hmem2, List.append_assoc]

/-- The validator applied during the sequential sitemap walk: a candidate
wins when its fetch succeeds and the body validates. -/
def sitemapPred (fetch : String → Option String) (u : String) : Bool :=
  match fetch u with
  | some content => isValidSitemap content
  | none => false

theorem sitemapWalk_eq_find (fetch : String → Option String) (urls : List String)
    (cleanUrl : String) :
    ∀ cands, sitemapWalk fetch urls cleanUrl cands =
      (match cands.find? (sitemapPred fetch) with
       | some u => sitemapHit urls cleanUrl u
       | none => sitemapDefault) := by
  intro cands
  induction cands with
  | nil => rfl
  | cons u rest ih =>
    rw [sitemapWalk, List.find?]
    cases hf : fetch u with
    | none =>
      have hp : sitemapPred fetch u = false := by simp [sitemapPred, hf]
      simp only [hp]
      exact ih
    | some content =>
      dsimp only
      by_cases hv : isValidSitemap content
      · have hp : sitemapPred fetch u = true := by simp [sitemapPred, hf, hv]
        simp only [hp, hv, if_true]
      · have hp : sitemapPred fetch u = false := by simp [sitemapPred, hf, hv]
        simp only [hp, hv, Bool.false_eq_true, if_false]
        exact ih

set_option maxHeartbeats 1000000 in
/-- C8: the candidate list is the robots-discovered sitemap URLs in order
followed by the five conventional paths with duplicates skipped; the walk
returns the first candidate whose body validates (fetch errors skipped);
and the winning Signal's details say "(referenced in robots.txt)" exactly
when the winner was a robots-discovered URL, else name the guessed path. -/
theorem sitemap_walk_properties :
    (∀ (urls : List String) (cleanUrl : String),
      sitemapCandidates urls cleanUrl =
        urls ++ (commonLocations cleanUrl).filter (fun u => !urls.contains u)) ∧
    (∀ (fetch : String → Option String) (urls : List String) (cleanUrl : String)
      (cands : List String),
      sitemapWalk fetch urls cleanUrl cands =
        (match cands.find? (sitemapPred fetch) with
         | some u => sitemapHit urls cleanUrl u
         | none => sitemapDefault)) ∧
    (∀ (fetch : String → Option String) (urls : List String) (cleanUrl : String)
      (cands : List String) (u : String),
      cands.find? (sitemapPred fetch) = some u → urls.contains u = true →
        (sitemapWalk fetch urls cleanUrl cands).details =
          "Valid XML sitemap found (referenced in robots.txt)") ∧
    (∀ (fetch : String → Option String) (urls : List String) (cleanUrl : String)
      (cands : List String) (u : String),
      cands.find? (sitemapPred fetch) = some u → urls.contains u = false →
        (sitemapWalk fetch urls cleanUrl cands).details =
          "Valid XML sitemap found at " ++ strReplaceFirst cleanUrl "" u) := by
  refine ⟨fun urls cleanUrl => addCandidates_eq _ _ (nodup_commonLocations cleanUrl),
    sitemapWalk_eq_find, ?_, ?_⟩
  · intro fetch urls cleanUrl cands u hfind hmem
    rw [sitemapWalk_eq_find, hfind]
    show ("Valid XML sitemap found" ++
      if urls.contains u = true then " (referenced in robots.txt)"
      else " at " ++ strReplaceFirst cleanUrl "" u) =
      "Valid XML sitemap found (referenced in robots.txt)"
    rw [if_pos hmem]
    rfl
  · intro fetch urls cleanUrl cands u hfind hmem
    rw [sitemapWalk_eq_find, hfind]
    show ("Valid XML sitemap found" ++
      if urls.contains u = true then " (referenced in robots.txt)"
      else " at " ++ strReplaceFirst cleanUrl "" u) =
      "Valid XML sitemap found at " ++ strReplaceFirst cleanUrl "" u
    rw [if_neg (show ¬ (urls.contains u = true) from fun h => by rw [h] at hmem; cases hmem)]
    have hlit : ("Valid XML sitemap found at " : String) = "Valid XML sitemap found" ++ " at " :=
      rfl
    rw [hlit, String.append_assoc]

set_option maxHeartbeats 1000000 in
/-- Witness for C8 at a concrete fetch oracle: the robots-declared URL
wins and the details mention robots.txt. -/
theorem sitemap_walk_witness :
    (sitemapWalk (fun u => if u = "https://x/sm.xml" then some "<?xml" else none)
      ["https://x/sm.xml"] "https://x"
      (sitemapCandidates ["https://x/sm.xml"] "https://x")).details =
      "Valid XML sitemap found (referenced in robots.txt)" := by
  have h1 : (sitemapCandidates ["https://x/sm.xml"] "https://x").find?
      (sitemapPred (fun u => if u = "https://x/sm.xml" then some "<?xml" else none)) =
      some "https://x/sm.xml" := by decide
  have h2 : (["https://x/sm.xml"] : List String).contains "https://x/sm.xml" = true := by decide
  exact sitemap_walk_properties.2.2.1 _ _ "https://x" _ _ h1 h2

/-! ## The enrichment route (`app/api/ai-analysis/route.ts`, part_000) -/

/-- One enrichment insight; status is free-form text in this route. -/
structure Insight where
  id : String
  label : String
  score : ℚ
  status : String
  details : String
  recommendation : String
  actionItems : List String
deriving DecidableEq, Repr

/-- The bundle shape returned by the insight generator. -/
structure InsightBundle where
  insights : List Insight
  overallAIReadiness : String
  topPriorities : List String
deriving DecidableEq, Repr

/-- `generateMockInsights` (part_000:62-191): the canonical fallback
InsightBundle; the `data-structure` insight interpolates the url into one
action item. -/
def generateMockInsights (url : String) : InsightBundle :=
  { insights := [
    { id := "content-quality",
      label := "Content Quality for AI",
      score := 75,
      status := "warning",
      details := "Content is generally well-structured with clear paragraphs and headings. Some sections could benefit from better semantic markup.",
      recommendation := "Great structure! Your headings are descriptive and paragraphs are well-organized.",
      actionItems := [
        "Example of good heading: \"How to Configure API Authentication\" instead of \"Setup\"",
        "Keep paragraphs under 150 words (yours average 120 - excellent!)",
        "Add a TL;DR section like: <section class=\"tldr\">Key points...</section>",
        "Start each section with a clear topic sentence that summarizes the content"
      ] },
    { id := "data-structure",
      label := "Data Structure & Schema",
      score := 60,
      status := "warning",
      details := "Basic structured data present but could be enhanced with more detailed schema markup.",
      recommendation := "Add JSON-LD structured data to help AI understand your content better.",
      actionItems := [
        "Add this to your <head>: <script type=\"application/ld+json\">\x7b\"@context\":\"https://schema.org\",\"@type\":\"WebSite\",\"name\":\"Your Site\",\"url\":\"" ++ url ++ "\"\x7d</script>",
        "For articles, use: \x7b\"@type\":\"Article\",\"headline\":\"Your Title\",\"author\":\x7b\"@type\":\"Person\",\"name\":\"Author Name\"\x7d\x7d",
        "For your company info: \x7b\"@type\":\"Organization\",\"name\":\"Company\",\"logo\":\"logo.png\",\"contactPoint\":\x7b\"@type\":\"ContactPoint\",\"telephone\":\"+1-xxx\"\x7d\x7d",
        "For FAQs: \x7b\"@type\":\"FAQPage\",\"mainEntity\":[\x7b\"@type\":\"Question\",\"name\":\"Q?\",\"acceptedAnswer\":\x7b\"@type\":\"Answer\",\"text\":\"A\"\x7d\x7d]\x7d",
        "For products: \x7b\"@type\":\"Product\",\"name\":\"Product Name\",\"offers\":\x7b\"@type\":\"Offer\",\"price\":\"99.99\",\"priceCurrency\":\"USD\"\x7d\x7d"
      ] },
    { id := "crawlability",
      label := "Crawlability Score",
      score := 85,
      status := "pass",
      details := "Site structure is logical and easy to navigate. Good use of internal linking and clear URL structure.",
      recommendation := "Excellent crawlability! Your site structure is clear and well-organized.",
      actionItems := [
        "Your URL structure is clean: /docs/getting-started - keep this pattern!",
        "Add breadcrumbs like: Home > Docs > Getting Started with this markup: <nav aria-label=\"breadcrumb\"><ol itemscope itemtype=\"https://schema.org/BreadcrumbList\">...</ol></nav>",
        "Your internal linking is strong - maintain descriptive anchor text like \"Learn about authentication\" instead of \"click here\"",
        "Site depth is good - most pages are within 2-3 clicks from homepage"
      ] },
    { id := "training-value",
      label := "AI Training Value",
      score := 70,
      status := "warning",
      details := "Content provides good informational value but lacks depth in some areas.",
      recommendation := "Good informational value. Add more examples to make it even better for AI training.",
      actionItems := [
        "Add a real example: \"For instance, when implementing auth, you might encounter error 401...\"",
        "Include code snippets: ```js\nconst auth = await authenticate(user);\n// Handle response...\n```",
        "Create comparison tables: <table><tr><th>Method</th><th>Pros</th><th>Cons</th></tr>...</table>",
        "Add \"Common Pitfalls\" sections with specific scenarios",
        "Link to authoritative sources: \"According to [MDN Web Docs](https://developer.mozilla.org)...\""
      ] },
    { id := "knowledge-graph",
      label := "Knowledge Graph Readiness",
      score := 55,
      status := "warning",
      details := "Entities are identifiable but relationships between them are not well-defined.",
      recommendation := "Add explicit relationships between your content entities.",
      actionItems := [
        "Link related pages: <link rel=\"related\" href=\"/docs/auth\"> or use link[itemprop=\"relatedLink\"]",
        "Define relationships in JSON-LD: \"mentions\": [\x7b\"@type\": \"Thing\", \"name\": \"API\", \"sameAs\": \"https://en.wikipedia.org/wiki/API\"\x7d]",
        "Create topic hubs: Main authentication page linking to OAuth, JWT, Session subtopics",
        "Use semantic HTML: <article itemscope itemtype=\"https://schema.org/TechArticle\">",
        "Connect authors: <span itemprop=\"author\" itemscope itemtype=\"https://schema.org/Person\"><span itemprop=\"name\">John Doe</span></span>"
      ] },
    { id := "entity-recognition",
      label := "Entity Recognition",
      score := 80,
      status := "pass",
      details := "Clear identification of main entities, brands, and topics throughout the content.",
      recommendation := "Good entity identification! Enhance it with proper markup.",
      actionItems := [
        "For people mentions: <span itemscope itemtype=\"https://schema.org/Person\"><span itemprop=\"name\">CEO Jane Smith</span></span>",
        "For company mentions: <span itemscope itemtype=\"https://schema.org/Organization\"><span itemprop=\"name\">Vercel Inc.</span></span>",
        "For product mentions: <span itemscope itemtype=\"https://schema.org/Product\"><span itemprop=\"name\">Next.js 14</span></span>",
        "For locations: <span itemscope itemtype=\"https://schema.org/Place\"><span itemprop=\"name\">San Francisco, CA</span></span>",
        "For events: <div itemscope itemtype=\"https://schema.org/Event\"><span itemprop=\"name\">Next.js Conf 2024</span></div>"
      ] },
    { id := "completeness",
      label := "Content Completeness",
      score := 65,
      status := "warning",
      details := "Main topics are covered but some sections lack comprehensive information.",
      recommendation := "Content is fairly complete. Add these sections to fill remaining gaps.",
      actionItems := [
        "Add an FAQ section: <section class=\"faq\"><h2>Frequently Asked Questions</h2><details><summary>What is X?</summary><p>Answer...</p></details></section>",
        "Create a glossary: <dl><dt>API</dt><dd>Application Programming Interface - allows different software to communicate</dd></dl>",
        "Add prerequisites box: <div class=\"prerequisites\"><h3>Before you begin</h3><ul><li>Node.js 18+</li><li>Basic JavaScript knowledge</li></ul></div>",
        "Include related links: <aside class=\"related\"><h3>Related Topics</h3><ul><li><a href=\"/auth\">Authentication Guide</a></li></ul></aside>",
        "Add summary cards: <div class=\"summary\">⚡ Key Points: <ul><li>Point 1</li><li>Point 2</li></ul></div>"
      ] },
    { id := "context-completeness",
      label := "Context Completeness",
      score := 65,
      status := "warning",
      details := "Content provides good information but could include more contextual elements.",
      recommendation := "Add more context to help AI systems better understand your content.",
      actionItems := [
        "Include brief introductions that explain the topic relevance",
        "Define technical terms and acronyms when first used",
        "Provide examples and use cases to illustrate concepts",
        "Add publication dates and author information for credibility",
        "Include summaries or key takeaways for complex topics"
      ] }],
    overallAIReadiness := "The website shows moderate AI readiness with good basic structure but needs enhancement in data structuring and API accessibility.",
    topPriorities := [
      "Implement comprehensive structured data schemas",
      "Create API endpoints for content access",
      "Enhance content depth and completeness"] }

/-- Fueled scan for a fence marker with an optional trailing newline
(`/```json\n?/g` and `/```\n?/g`), replaced by the empty string. -/
def stripFenceF (d : Char) (ps : List Char) : Nat → List Char → List Char
  | 0, l => l
  | _, [] => []
  | fuel + 1, c :: rest =>
    if (d :: ps).isPrefixOf (c :: rest) then
      match rest.drop ps.length with
      | '\n' :: r2 => stripFenceF d ps fuel r2
      | r => stripFenceF d ps fuel r
    else c :: stripFenceF d ps fuel rest

def stripFence (d : Char) (ps : List Char) (l : List Char) : List Char :=
  stripFenceF d ps l.length l

/-- part_000:46: strip ```json fences, then bare ``` fences, then trim. -/
def cleanGeminiText (s : String) : String :=
  String.mk (trimWS (stripFence '`' "``".data (stripFence '`' "``json".data s.data)))

/-- `generateGeminiInsights` (part_000:18-60) with the generative model
and the JSON parser as oracles: `modelResponse = none` models a transport
or capability failure; a parse result of `none` models a strict JSON parse
failure on the cleaned text.  Both fall back to the mock bundle. -/
def generateGeminiInsights (parse : String → Option InsightBundle)
    (modelResponse : Option String) (url : String) : InsightBundle :=
  match modelResponse with
  | none => generateMockInsights url
  | some text =>
    match parse (cleanGeminiText text) with
    | some b => b
    | none => generateMockInsights url

/-- The observable response of the enrichment POST route. -/
structure AnalysisResponse where
  status : Nat
  success : Bool
  error : Option String
  insights : List Insight
  overallAIReadiness : String
  topPriorities : List String
deriving DecidableEq, Repr

/-- JS truthiness of an optional string body field. -/
def truthyStr : Option String → Bool
  | none => false
  | some s => !(s == "")

/-- The enrichment `POST` handler (part_000:193-227) on a successfully
parsed body: 400 when url or htmlContent is missing or empty, otherwise a
success response carrying the generated (or fallback) bundle. -/
def analysisPOST (parse : String → Option InsightBundle) (modelResponse : Option String)
    (url htmlContent : Option String) : AnalysisResponse :=
  if !(truthyStr url) || !(truthyStr htmlContent) then
    { status := 400, success := false, error := some "URL and HTML content are required",
      insights := [], overallAIReadiness := "", topPriorities := [] }
  else
    let b := generateGeminiInsights parse modelResponse (url.getD "")
    { status := 200, success := true, error := none,
      insights := b.insights, overallAIReadiness := b.overallAIReadiness,
      topPriorities := b.topPriorities }

/-- C2: whenever the generative model fails (transport/capability) or its
response text fails the strict JSON parse after fence-stripping and
trimming, the enrichment entry point returns a success response (status
200, `success: true`, no error) carrying the canonical fallback bundle. -/
theorem enrichment_fallback_success (parse : String → Option InsightBundle)
    (resp : Option String) (url htmlContent : Option String)
    (hu : truthyStr url = true) (hh : truthyStr htmlContent = true)
    (hfail : resp = none ∨ ∃ t, resp = some t ∧ parse (cleanGeminiText t) = none) :
    analysisPOST parse resp url htmlContent =
      { status := 200, success := true, error := none,
        insights := (generateMockInsights (url.getD "")).insights,
        overallAIReadiness := (generateMockInsights (url.getD "")).overallAIReadiness,
        topPriorities := (generateMockInsights (url.getD "")).topPriorities } := by
  have hb : generateGeminiInsights parse resp (url.getD "") =
      generateMockInsights (url.getD "") := by
    rcases hfail with rfl | ⟨t, rfl, hparse⟩
    · rfl
    · simp only [generateGeminiInsights, hparse]
  simp only [analysisPOST, hu, hh, Bool.not_true, Bool.or_self, Bool.false_eq_true, if_false,
    hb]

/-- Witness for C2: a parser that rejects everything and a non-JSON model
response still produce the success-plus-fallback response. -/
theorem enrichment_fallback_witness :
    analysisPOST (fun _ => none) (some "not json at all") (some "https://example.com")
      (some "<p>hi</p>") =
      { status := 200, success := true, error := none,
        insights := (generateMockInsights "https://example.com").insights,
        overallAIReadiness := (generateMockInsights "https://example.com").overallAIReadiness,
        topPriorities := (generateMockInsights "https://example.com").topPriorities } :=
  enrichment_fallback_success (fun _ => none) (some "not json at all")
    (some "https://example.com") (some "<p>hi</p>") (by decide) (by decide)
    (Or.inr ⟨"not json at all", rfl, rfl⟩)

/-- C9 counterexample: not every Insight in the canonical fallback bundle
has exactly 5 action items (content-quality has 4). -/
theorem mock_insights_not_all_five :
    ¬ (∀ i ∈ (generateMockInsights "https://example.com").insights,
        i.actionItems.length = 5) := by
  decide

/-- C9 (amended): the fallback Insights carry 4 or 5 action items each —
in order, content-quality 4, data-structure 5, crawlability 4, and the
remaining five insights 5. -/
theorem mock_insights_action_counts (url : String) :
    (generateMockInsights url).insights.map (fun i => i.actionItems.length) =
      [4, 5, 4, 5, 5, 5, 5, 5] := rfl

/-- C10: a parsed enrichment request missing url or htmlContent (absent or
empty, both falsy) gets a 400 error response with the fixed message, not a
success-with-fallback response. -/
theorem enrichment_missing_input_400 (parse : String → Option InsightBundle)
    (resp : Option String) (url htmlContent : Option String)
    (h : truthyStr url = false ∨ truthyStr htmlContent = false) :
    analysisPOST parse resp url htmlContent =
      { status := 400, success := false, error := some "URL and HTML content are required",
        insights := [], overallAIReadiness := "", topPriorities := [] } := by
  rcases h with h | h <;> simp [analysisPOST, h]

/-- Witness for C10 at a concrete request with a missing url. -/
theorem enrichment_missing_input_witness :
    analysisPOST (fun _ => none) none none (some "<p>hi</p>") =
      { status := 400, success := false, error := some "URL and HTML content are required",
        insights := [], overallAIReadiness := "", topPriorities := [] } :=
  enrichment_missing_input_400 (fun _ => none) none none (some "<p>hi</p>") (Or.inl rfl)

end Seo
